import Mathlib

/-!
Shallow embedding of `src/src/rest_api/actions/base_actions.py`
(diagnostic-session client: frame reassembly, response verification,
per-service payload extraction, seed/key authentication handshake).

Conventions of the embedding:
* A CAN message (`can.Message`) is a `CanMessage`: an arbitration
  identifier and a payload, the payload a list of byte values.
* Python code that can raise on the modelled path (an out-of-range index
  `msg.data[i]`, iterating `None`) is embedded totally: such a function
  returns `Option _`, where `none` is the runtime-error outcome.
  Python slices (`data[k:]`) never raise and are embedded as `List.drop`.
* Python's `value & ((1 << 8) - 1)` on arbitrary-precision two's-complement
  integers equals `value mod 2 ^ 8`; it is embedded as `Int.emod` by `2 ^ 8`.
* The wall-clock timestamp put into an error envelope by `_to_json_error`
  is nondeterministic and carries no information for the properties below;
  an `ErrorEnvelope` keeps the error kind and the error count.
* The bus (`self.bus.recv(3)`) is modelled as the list of frames the
  bounded polls return before the first timeout: `recv` yields the head,
  and yields `None` (timeout) once the list is exhausted.
-/

/-- Embeds `can.Message` as seen by this module: `arbitration_id` plus the
payload bytes `data`. -/
structure CanMessage where
  arbitration_id : Nat
  data : List Nat
  deriving DecidableEq

/-- Source line `SESSION_CONTROL = 0x10`. -/
def SESSION_CONTROL : Nat := 0x10

/-- Source line `RESET_ECU = 0x11`. -/
def RESET_ECU : Nat := 0x11

/-- Source line `READ_BY_ADDRESS = 0x23`. -/
def READ_BY_ADDRESS : Nat := 0x23

/-- Source line `READ_BY_IDENTIFIER = 0x022`. -/
def READ_BY_IDENTIFIER : Nat := 0x22

/-- Source line `AUTHENTICATION = 0x29`. -/
def AUTHENTICATION : Nat := 0x29

/-- Source line `ROUTINE_CONTROL = 0X31`. -/
def ROUTINE_CONTROL : Nat := 0x31

/-- Source line `WRITE_BY_IDENTIFIER = 0X2E`. -/
def WRITE_BY_IDENTIFIER : Nat := 0x2E

/-- Source line `READ_DTC = 0X19`. -/
def READ_DTC : Nat := 0x19

/-- Source line `CLEAR_DTC = 0X14`. -/
def CLEAR_DTC : Nat := 0x14

/-- Source line `REQUEST_DOWNLOAD = 0X83`. -/
def REQUEST_DOWNLOAD : Nat := 0x83

/-- Source line `TRANSFER_DATA = 0X36`. -/
def TRANSFER_DATA : Nat := 0x36

/-- Source line `REQUEST_TRANSFER_EXIT = 0X37`. -/
def REQUEST_TRANSFER_EXIT : Nat := 0x37

namespace ReadByIdentifier

/-- `ReadByIdentifier._data_from_frame`: `data = msg.data[4:]`.
The slice is total, so this always succeeds. -/
def dataFromFrame (msg : CanMessage) : Option (List Nat) :=
  some (msg.data.drop 4)

end ReadByIdentifier

namespace ReadByAddress

/-- `ReadByAddress._data_from_frame`:
`addr_siz_len = msg.data[2]` (raises when the payload is shorter than 3,
embedded as `none`), then
`byte_start_data = addr_siz_len % 0x10 + addr_siz_len // 0x10` and
`data = msg.data[3 + byte_start_data:]`. -/
def dataFromFrame (msg : CanMessage) : Option (List Nat) :=
  match msg.data[2]? with
  | none => none
  | some addr_siz_len =>
      some (msg.data.drop (3 + (addr_siz_len % 0x10 + addr_siz_len / 0x10)))

end ReadByAddress

namespace AuthenticationSeed

/-- `AuthenticationSeed._data_from_frame`: `data = msg.data[3:]`. -/
def dataFromFrame (msg : CanMessage) : Option (List Nat) :=
  some (msg.data.drop 3)

end AuthenticationSeed

/-- The dictionary built by `Action._to_json_error`, kept to its two
informative fields (the `time_stamp` field is a wall-clock reading, see the
module comment). -/
structure ErrorEnvelope where
  error : String
  noErrors : Nat
  deriving DecidableEq

namespace Action

/-- `Action.__verify_frame(msg, sid)`; `myId` is `self.my_id`.
Returns `some true` / `some false` for the Python `True` / `False`, and
`none` when an index read (`msg.data[0]`, `msg.data[1]`, `msg.data[2]`)
is out of range, which in Python raises `IndexError`. -/
def verifyFrame (myId : Nat) (msg : CanMessage) (sid : Nat) : Option Bool :=
  if msg.arbitration_id % 0x100 ≠ myId then some false
  else
    match msg.data[0]? with
    | none => none
    | some b0 =>
        if b0 ≠ 0x10 then
          match msg.data[1]? with
          | none => none
          | some b1 => if b1 ≠ sid + 0x40 then some false else some true
        else
          match msg.data[2]? with
          | none => none
          | some b2 => if b2 ≠ sid + 0x40 then some false else some true

/-- `msg_ext = msg[1:]` in `Action.__collect_response`: the retained
First-Frame message minus its marker byte (the spec's transport-interface
reading of slicing a message: same identifier, payload after the marker). -/
def slice1 (msg : CanMessage) : CanMessage :=
  ⟨msg.arbitration_id, msg.data.drop 1⟩

/-- The code after the polling loop of `Action.__collect_response`:
`if flag: msg = msg_ext`, then
`if msg is not None and self.__verify_frame(msg, sid): return msg` else
`return None`.  Outer `none` is a runtime error inside verification;
`some none` is the Python `return None`. -/
def collectFinish (myId sid : Nat) (msg : Option CanMessage) (flag : Bool)
    (msgExt : Option CanMessage) : Option (Option CanMessage) :=
  let msg := if flag then msgExt else msg
  match msg with
  | none => some none
  | some m =>
      match verifyFrame myId m sid with
      | none => none
      | some true => some (some m)
      | some false => some none

/-- The `while msg is not None` polling loop of `Action.__collect_response`,
over the list of frames the bus yields before its first timeout.
State: `flag` and `msg_ext` as in the source.  Branches in source order:
First Frame (`msg.data[0] == 0x10`), Consecutive Frame
(`flag and 0x20 < msg.data[0] < 0x30`, appending `msg.data[1:]` to
`msg_ext.data`), otherwise `break` with the current frame. -/
def collectLoop (myId sid : Nat) (flag : Bool) (msgExt : Option CanMessage) :
    List CanMessage → Option (Option CanMessage)
  | [] => collectFinish myId sid none flag msgExt
  | m :: rest =>
      match m.data[0]? with
      | none => none
      | some b0 =>
          if b0 = 0x10 then
            collectLoop myId sid true (some (slice1 m)) rest
          else if flag ∧ 0x20 < b0 ∧ b0 < 0x30 then
            match msgExt with
            | none => none
            | some ext =>
                collectLoop myId sid flag
                  (some ⟨ext.arbitration_id, ext.data ++ m.data.drop 1⟩) rest
          else
            collectFinish myId sid (some m) flag msgExt

/-- `Action.__collect_response(sid)`: run the polling loop from the initial
state `flag = False`, `msg_ext = None`. -/
def collectResponse (myId sid : Nat) (bus : List CanMessage) :
    Option (Option CanMessage) :=
  collectLoop myId sid false none bus

/-- `Action._to_json_error(error, no_errors)` (minus the wall-clock
`time_stamp` field, see the module comment). -/
def toJsonError (error : String) (noErrors : Nat) : ErrorEnvelope :=
  ⟨error, noErrors⟩

end Action

/-- Observable outcome of one `Action._passive_response` call:
the returned value, every envelope built by a `_to_json_error` call during
it, and the `CustomError` raised, if any.  In the source the
`raise CustomError(response_json)` line is commented out, so no path of
this function raises. -/
structure PassiveResult where
  response : Option CanMessage
  envelopesBuilt : List ErrorEnvelope
  raised : Option ErrorEnvelope
  deriving DecidableEq

namespace Action

/-- `Action._passive_response(sid, error_str)`.  Collects via
`__collect_response`; when that returns `None` it builds
`_to_json_error("interrupted", 1)` into a local variable and — the raise
being commented out — still returns the `None` response. -/
def passiveResponse (myId sid : Nat) (bus : List CanMessage)
    (errorStr : String) : Option PassiveResult :=
  match collectResponse myId sid bus with
  | none => none
  | some none => some ⟨none, [toJsonError "interrupted" 1], none⟩
  | some (some m) => some ⟨some m, [], none⟩

/-- `Action._data_from_frame(msg)`.  For `msg is None` the source returns
the `[1, 2, 3, 4, 5]` placeholder (its `#debugging` branch).  Otherwise it
dispatches on `msg.data[1] if msg.data[0] != 0x10 else msg.data[2]` through
the `handlers` dict `{0x62: ReadByIdentifier(), 0x63: ReadByAddress(),
0x29: AuthenticationSeed()}`; an unknown code falls through to
`return None`, embedded as `some none`.  Outer `none` is an `IndexError`. -/
def dataFromFrame (msg : Option CanMessage) : Option (Option (List Nat)) :=
  match msg with
  | none => some (some [1, 2, 3, 4, 5])
  | some m =>
      match m.data[0]? with
      | none => none
      | some b0 =>
          match (if b0 ≠ 0x10 then m.data[1]? else m.data[2]?) with
          | none => none
          | some code =>
              if code = 0x62 then (ReadByIdentifier.dataFromFrame m).map some
              else if code = 0x63 then (ReadByAddress.dataFromFrame m).map some
              else if code = 0x29 then
                (AuthenticationSeed.dataFromFrame m).map some
              else some none

/-- `Action.__algorithm(seed)`: per element, two's-complement adjustment
`value = (1 << 8) + value` when negative, then
`value & ((1 << 8) - 1)`, i.e. `value mod 2 ^ 8` (module comment). -/
def algorithm (seed : List Int) : List Int :=
  let bit_width : Nat := 8
  seed.map (fun (value : Int) =>
    let value := if value < 0 then ((1 <<< bit_width : Nat) : Int) + value
                 else value
    value % ((1 <<< bit_width : Nat) : Int))

end Action

/-- Observable outcome of one `Action._authentication` call: the seed value
bound by `seed = self._data_from_frame(frame_response)`, the key passed to
`generate.authentication_key` (the submission side effect), and every error
envelope built along the way. -/
structure AuthResult where
  seed : Option (List Nat)
  keySubmitted : Option (List Int)
  envelopesBuilt : List ErrorEnvelope
  deriving DecidableEq

namespace Action

/-- `Action._authentication(id)`, with the frames the bus yields for the
two collect cycles given as `seedBus` and `keyBus`.  Mirrors the source
order: seed request send (external), `_passive_response`,
`_data_from_frame`, `__algorithm`, key send (external, recorded as
`keySubmitted`), second `_passive_response`.  `__algorithm(None)` — the
unrecognized-code case — raises `TypeError` in Python: outer `none`. -/
def authentication (myId : Nat) (seedBus keyBus : List CanMessage) :
    Option AuthResult :=
  match passiveResponse myId AUTHENTICATION seedBus "Error requesting seed" with
  | none => none
  | some pr1 =>
      match dataFromFrame pr1.response with
      | none => none
      | some none => none
      | some (some seed) =>
          let key := algorithm (seed.map (fun n => (n : Int)))
          match passiveResponse myId AUTHENTICATION keyBus "Error sending key" with
          | none => none
          | some pr2 =>
              some ⟨some seed, some key, pr1.envelopesBuilt ++ pr2.envelopesBuilt⟩

end Action

/-- One iteration body of the `for item in list` loop of
`Action._list_to_number`, threaded over the accumulator string `number`:
`if item <= 0xF: number += "0"` then `number += hex(item)[2:]`
(`hex(item)[2:]` for a natural `item` is its lowercase base-16 digits,
`Nat.toDigits 16 item`). -/
def listToNumberAux (number : String) : List Nat → String
  | [] => number
  | item :: rest =>
      listToNumberAux
        ((if item ≤ 0xF then number ++ "0" else number) ++
          String.mk (Nat.toDigits 16 item)) rest

namespace Action

/-- `Action._list_to_number(list)`: the loop run from `number = ""`. -/
def listToNumber (l : List Nat) : String :=
  listToNumberAux "" l

end Action

/-- The characters one loop iteration of `_list_to_number` appends for
`item`: an optional `'0'` pad then the lowercase hex digits. -/
def byteHexChars (item : Nat) : List Char :=
  (if item ≤ 0xF then [Char.ofNat 48] else []) ++ Nat.toDigits 16 item

/-- A lowercase hexadecimal digit character. -/
def isLowerHexDigit (c : Char) : Prop :=
  (Char.ofNat 48 ≤ c ∧ c ≤ Char.ofNat 57) ∨
  (Char.ofNat 97 ≤ c ∧ c ≤ Char.ofNat 102)

instance (c : Char) : Decidable (isLowerHexDigit c) := by
  unfold isLowerHexDigit; infer_instance

/-- Value of one lowercase hexadecimal digit character (decoder side of the
round-trip stated in the spec). -/
def hexDigitToNat (c : Char) : Option Nat :=
  if Char.ofNat 48 ≤ c ∧ c ≤ Char.ofNat 57 then some (c.toNat - 48)
  else if Char.ofNat 97 ≤ c ∧ c ≤ Char.ofNat 102 then some (c.toNat - 97 + 10)
  else none

/-- Decode a hex string two digits at a time, per the spec's round-trip
property ("decoding that string back two hex digits at a time"). -/
def decodeHexPairs : List Char → Option (List Nat)
  | [] => some []
  | c1 :: c2 :: rest =>
      match hexDigitToNat c1, hexDigitToNat c2, decodeHexPairs rest with
      | some hi, some lo, some tail => some ((16 * hi + lo) :: tail)
      | _, _, _ => none
  | [_] => none

/-! ## Helper lemmas -/

/-- The `1 << 8` constant of `Action.__algorithm`, as an integer. -/
theorem one_shl_eight : ((1 <<< 8 : Nat) : Int) = 256 := rfl

/-- Each transformed seed byte of `Action.__algorithm` is a residue
mod `2 ^ 8`. -/
theorem algorithm_mem (k : Int) (seed : List Int) (hk : k ∈ Action.algorithm seed) :
    ∃ v ∈ seed, k = (if v < 0 then 256 + v else v) % 256 := by
  simp only [Action.algorithm, List.mem_map, one_shl_eight] at hk
  obtain ⟨v, hv, hfv⟩ := hk
  exact ⟨v, hv, hfv.symm⟩

/-! ## Claim theorems -/

/-- Claim C3: on a poll timeout with no frame received, collection returns
no frame and `_passive_response` builds exactly one error envelope with
kind "interrupted" and count 1 — but (code bug) the raise of that envelope
is commented out in the source, so the envelope is discarded
(`raised = none`) and `None` is returned to the caller instead of the
envelope being surfaced. -/
theorem passiveResponse_timeout_envelope :
    Action.passiveResponse 0x12 0x27 [] "Error service" =
      some ⟨none, [⟨"interrupted", 1⟩], none⟩ := rfl

/-- Claim C4: with no response to the seed request (empty bus for both
collect cycles), the handshake does NOT abort — the placeholder
`[1, 2, 3, 4, 5]` stands in for the seed, the key is computed from it and
submitted, and the second collect cycle runs, building a second
"interrupted" envelope.  This exhibits the code-bug side of the claim:
key-computation and key-submission are performed after a failed
seed-request step. -/
theorem authentication_no_abort :
    Action.authentication 0x12 [] [] =
      some ⟨some [1, 2, 3, 4, 5], some [1, 2, 3, 4, 5],
            [⟨"interrupted", 1⟩, ⟨"interrupted", 1⟩]⟩ := rfl

/-- Claim C5: extraction IS attempted on an absent frame —
`_data_from_frame(None)` returns the debugging placeholder
`[1, 2, 3, 4, 5]` instead of never producing data, contradicting the
function's own docstring ("otherwise None"). -/
theorem dataFromFrame_none_placeholder :
    Action.dataFromFrame none = some (some [1, 2, 3, 4, 5]) := rfl

/-- Claim C1: for every frame whose first payload byte and whose
framing-dependent service-code byte (offset 2 when the first byte is the
First-Frame marker `0x10`, offset 1 otherwise) exist, verification accepts
(`some true`) exactly when the identifier modulo `0x100` equals the
expected sender id and the service-code byte equals
`expectedServiceId + 0x40`, and rejects (`some false`) exactly when either
condition fails. -/
theorem verifyFrame_accepts_iff (myId sid : Nat) (m : CanMessage)
    (b0 bs : Nat) (h0 : m.data[0]? = some b0)
    (hs : m.data[if b0 = 0x10 then 2 else 1]? = some bs) :
    (Action.verifyFrame myId m sid = some true ↔
      (m.arbitration_id % 0x100 = myId ∧ bs = sid + 0x40)) ∧
    (Action.verifyFrame myId m sid = some false ↔
      ¬(m.arbitration_id % 0x100 = myId ∧ bs = sid + 0x40)) := by
  by_cases hid : m.arbitration_id % 0x100 = myId
  · by_cases hb : b0 = 0x10
    · subst hb
      rw [if_pos rfl] at hs
      simp only [Action.verifyFrame, h0, hs, hid]
      by_cases hv : bs = sid + 0x40 <;> simp [hv]
    · rw [if_neg hb] at hs
      simp only [Action.verifyFrame, h0, hs, hid]
      by_cases hv : bs = sid + 0x40 <;> simp [hv, hb]
  · simp [Action.verifyFrame, hid]

/-- Witness for C1 at a concrete accepted simple frame. -/
theorem verifyFrame_accepts_iff_witness :
    Action.verifyFrame 0x12 ⟨0x112, [0x62, 0x62, 0xAA]⟩ 0x22 = some true ↔
      ((0x112 : Nat) % 0x100 = 0x12 ∧ (0x62 : Nat) = 0x22 + 0x40) :=
  (verifyFrame_accepts_iff 0x12 0x22 ⟨0x112, [0x62, 0x62, 0xAA]⟩
    0x62 0x62 rfl rfl).1

/-- Claim C6: for every seed of signed 8-bit values (each in
`[-128, 255]`), the key computed by `Action.__algorithm` has the seed's
length (and order: entry `i` is computed from seed entry `i`, see the
`-1 ↦ 255` clause), every key byte lies in `[0, 255]`, and a seed byte of
`-1` maps to the key byte `255`. -/
theorem algorithm_key_spec (seed : List Int)
    (h : ∀ v ∈ seed, -128 ≤ v ∧ v ≤ 255) :
    (Action.algorithm seed).length = seed.length ∧
    (∀ k ∈ Action.algorithm seed, 0 ≤ k ∧ k ≤ 255) ∧
    (∀ i (h1 : i < seed.length) (h2 : i < (Action.algorithm seed).length),
      seed[i] = -1 → (Action.algorithm seed)[i] = 255) := by
  refine ⟨by simp [Action.algorithm], ?_, ?_⟩
  · intro k hk
    obtain ⟨v, hv, rfl⟩ := algorithm_mem k seed hk
    constructor
    · exact Int.emod_nonneg _ (by norm_num)
    · have hlt := Int.emod_lt_of_pos (if v < 0 then 256 + v else v)
        (show (0 : Int) < 256 by norm_num)
      omega
  · intro i h1 h2 hneg
    simp only [Action.algorithm, List.getElem_map, one_shl_eight, hneg]
    norm_num

/-- Witness for C6 at the concrete seed `[-1, 0, 255]`. -/
theorem algorithm_key_spec_witness :
    (Action.algorithm [-1, 0, 255]).length = ([-1, 0, 255] : List Int).length ∧
    (∀ k ∈ Action.algorithm [-1, 0, 255], 0 ≤ k ∧ k ≤ 255) ∧
    (∀ i (h1 : i < ([-1, 0, 255] : List Int).length)
      (h2 : i < (Action.algorithm [-1, 0, 255]).length),
      ([-1, 0, 255] : List Int)[i] = -1 →
        (Action.algorithm [-1, 0, 255])[i] = 255) :=
  algorithm_key_spec [-1, 0, 255] (by decide)

/-- Claim C8: on every frame dispatched to the ReadByAddress extractor
(positive-response code `0x63` at the framing-dependent offset), extraction
reads the address-and-size length byte `b` at payload offset 2 and returns
the payload from offset `3 + b % 0x10 + b / 0x10` to the end; in
particular a length byte `0x14` makes the data start at offset 8. -/
theorem readByAddress_extract (m : CanMessage) (b0 b : Nat)
    (h0 : m.data[0]? = some b0)
    (hc : m.data[if b0 = 0x10 then 2 else 1]? = some 0x63)
    (h2 : m.data[2]? = some b) :
    Action.dataFromFrame (some m) =
      some (some (m.data.drop (3 + (b % 0x10 + b / 0x10)))) ∧
    (b = 0x14 →
      Action.dataFromFrame (some m) = some (some (m.data.drop 8))) := by
  have hmain : Action.dataFromFrame (some m) =
      some (some (m.data.drop (3 + (b % 0x10 + b / 0x10)))) := by
    by_cases hb : b0 = 0x10
    · subst hb
      rw [if_pos rfl] at hc
      rw [h2] at hc
      obtain rfl : b = 0x63 := Option.some.inj hc
      simp [Action.dataFromFrame, h0, h2, ReadByAddress.dataFromFrame]
    · rw [if_neg hb] at hc
      simp [Action.dataFromFrame, h0, hc, hb, ReadByAddress.dataFromFrame, h2]
  refine ⟨hmain, fun hb14 => ?_⟩
  subst hb14
  simpa using hmain

/-- Witness for C8 at a concrete simple ReadByAddress response with length
byte `0x14`. -/
theorem readByAddress_extract_witness :
    Action.dataFromFrame
        (some ⟨0x112, [0x63, 0x63, 0x14, 0, 0, 0, 0, 0, 0xAB, 0xCD]⟩) =
      some (some (([0x63, 0x63, 0x14, 0, 0, 0, 0, 0, 0xAB, 0xCD] :
        List Nat).drop (3 + (0x14 % 0x10 + 0x14 / 0x10)))) ∧
    ((0x14 : Nat) = 0x14 →
      Action.dataFromFrame
          (some ⟨0x112, [0x63, 0x63, 0x14, 0, 0, 0, 0, 0, 0xAB, 0xCD]⟩) =
        some (some (([0x63, 0x63, 0x14, 0, 0, 0, 0, 0, 0xAB, 0xCD] :
          List Nat).drop 8))) :=
  readByAddress_extract ⟨0x112, [0x63, 0x63, 0x14, 0, 0, 0, 0, 0, 0xAB, 0xCD]⟩
    0x63 0x14 rfl rfl rfl

/-- Claim C9: extraction dispatches on the positive-response code at the
framing-dependent offset (offset 1 for a simple frame, offset 2 when the
first payload byte is `0x10`): code `0x62` returns the payload from offset
4 to the end, and a code with no registered handler yields no data
(`some none`, the Python `return None`). -/
theorem dataFromFrame_dispatch (m : CanMessage) (b0 c : Nat)
    (h0 : m.data[0]? = some b0)
    (hc : m.data[if b0 = 0x10 then 2 else 1]? = some c) :
    (c = 0x62 →
      Action.dataFromFrame (some m) = some (some (m.data.drop 4))) ∧
    (c ≠ 0x62 → c ≠ 0x63 → c ≠ 0x29 →
      Action.dataFromFrame (some m) = some none) := by
  constructor
  · rintro rfl
    by_cases hb : b0 = 0x10
    · subst hb
      rw [if_pos rfl] at hc
      simp [Action.dataFromFrame, h0, hc, ReadByIdentifier.dataFromFrame]
    · rw [if_neg hb] at hc
      simp [Action.dataFromFrame, h0, hc, hb, ReadByIdentifier.dataFromFrame]
  · intro h62 h63 h29
    by_cases hb : b0 = 0x10
    · subst hb
      rw [if_pos rfl] at hc
      simp [Action.dataFromFrame, h0, hc, h62, h63, h29]
    · rw [if_neg hb] at hc
      simp [Action.dataFromFrame, h0, hc, hb, h62, h63, h29]

/-- Witness for C9 at the spec's concrete ReadByIdentifier response
`[0x62, 0x62, id_hi, id_lo, 0xAA, 0xBB]`, which extracts `[0xAA, 0xBB]`. -/
theorem dataFromFrame_dispatch_witness :
    Action.dataFromFrame (some ⟨0x112, [0x62, 0x62, 0x01, 0x02, 0xAA, 0xBB]⟩) =
      some (some [0xAA, 0xBB]) := by
  simpa using
    (dataFromFrame_dispatch ⟨0x112, [0x62, 0x62, 0x01, 0x02, 0xAA, 0xBB]⟩
      0x62 0x62 rfl rfl).1 rfl

/-- Claim C10: verification and extraction read fixed payload offsets with
no length check, so on payloads shorter than the offset being read the
out-of-bounds (runtime-error) branch `none` of the total embedding is
reached — exhibited for the offset-1 and offset-2 service-code reads and
the ReadByAddress length-byte read — and that branch is unreachable as
soon as the payload is long enough (three bytes suffice for every indexed
read of both operations). -/
theorem frame_offsets_oob :
    Action.verifyFrame 0x12 ⟨0x12, [0x62]⟩ 0x22 = none ∧
    Action.verifyFrame 0x12 ⟨0x12, [0x10, 0x06]⟩ 0x22 = none ∧
    Action.dataFromFrame (some ⟨0x12, [0x62]⟩) = none ∧
    Action.dataFromFrame (some ⟨0x12, [0x63, 0x63]⟩) = none ∧
    (∀ (myId sid : Nat) (m : CanMessage), 3 ≤ m.data.length →
      (Action.verifyFrame myId m sid).isSome) ∧
    (∀ m : CanMessage, 3 ≤ m.data.length →
      (Action.dataFromFrame (some m)).isSome) := by
  refine ⟨rfl, rfl, rfl, rfl, ?_, ?_⟩
  · intro myId sid m h
    obtain ⟨id, data⟩ := m
    match data, h with
    | a :: b :: c :: rest, _ =>
      by_cases hid : id % 0x100 ≠ myId
      · simp [Action.verifyFrame, hid]
      · by_cases ha : a = 0x10
        · subst ha
          by_cases hc2 : c = sid + 0x40 <;>
            simp [Action.verifyFrame, hid, hc2]
        · by_cases hb2 : b = sid + 0x40 <;>
            simp [Action.verifyFrame, hid, ha, hb2]
  · intro m h
    obtain ⟨id, data⟩ := m
    match data, h with
    | a :: b :: c :: rest, _ =>
      simp only [Action.dataFromFrame, List.getElem?_cons_zero,
        List.getElem?_cons_succ, ReadByIdentifier.dataFromFrame,
        ReadByAddress.dataFromFrame, AuthenticationSeed.dataFromFrame]
      split
      · rename_i heq
        split at heq <;> simp at heq
      · split_ifs <;> simp

/-- Witness for C10's sufficient-length clauses at a three-byte payload. -/
theorem frame_offsets_oob_witness :
    (Action.verifyFrame 0x12 ⟨0x12, [0x62, 0x62, 0xAA]⟩ 0x22).isSome ∧
    (Action.dataFromFrame (some ⟨0x12, [0x62, 0x62, 0xAA]⟩)).isSome :=
  ⟨frame_offsets_oob.2.2.2.2.1 0x12 0x22 ⟨0x12, [0x62, 0x62, 0xAA]⟩
      (by decide),
    frame_offsets_oob.2.2.2.2.2 ⟨0x12, [0x62, 0x62, 0xAA]⟩ (by decide)⟩

/-- Claim C2: a First-Frame (first payload byte `0x10`) followed by two
frames whose first payload bytes lie strictly between `0x20` and `0x30`
(any such markers, regardless of sequence order) is reassembled by the
collector into one frame carrying the concatenation of the three frames'
post-marker bytes in arrival order, keeping the First-Frame's identifier;
when the reassembled frame passes verification it is what collection
returns. -/
theorem collectResponse_reassembles (myId sid i i1 i2 : Nat)
    (t0 t1 t2 : List Nat) (b1 b2 : Nat)
    (hb1 : 0x20 < b1) (hb1' : b1 < 0x30) (hb2 : 0x20 < b2) (hb2' : b2 < 0x30)
    (hv : Action.verifyFrame myId ⟨i, t0 ++ (t1 ++ t2)⟩ sid = some true) :
    Action.collectResponse myId sid
      [⟨i, 0x10 :: t0⟩, ⟨i1, b1 :: t1⟩, ⟨i2, b2 :: t2⟩] =
      some (some ⟨i, t0 ++ (t1 ++ t2)⟩) := by
  have h1 : ¬b1 = 0x10 := by omega
  have h2 : ¬b2 = 0x10 := by omega
  simp [Action.collectResponse, Action.collectLoop, Action.slice1,
    Action.collectFinish, h1, h2, hb1, hb1', hb2, hb2',
    List.append_assoc, hv]

/-- Witness for C2: the spec's end-to-end example, First-Frame then
Consecutive-Frames `0x21` and `0x22`. -/
theorem collectResponse_reassembles_witness :
    Action.collectResponse 0x12 0x27
      [⟨0x112, [0x10, 0x13, 0x67, 0x01]⟩, ⟨0x112, [0x21, 0x02]⟩,
        ⟨0x112, [0x22, 0x03]⟩] =
      some (some ⟨0x112, [0x13, 0x67, 0x01] ++ ([0x02] ++ [0x03])⟩) :=
  collectResponse_reassembles 0x12 0x27 0x112 0x112 0x112
    [0x13, 0x67, 0x01] [0x02] [0x03] 0x21 0x22
    (by decide) (by decide) (by decide) (by decide) (by decide)

/-- Data of a literal `String.mk`. -/
theorem data_mk (cs : List Char) : (String.mk cs).data = cs := rfl

/-- Data of the `"0"` pad appended by `_list_to_number`. -/
theorem data_zero_str : ("0" : String).data = [Char.ofNat 48] := rfl

/-- Data of the empty accumulator `number = ""`. -/
theorem data_empty_str : ("" : String).data = [] := rfl

/-- The loop of `_list_to_number` appends `byteHexChars item` per item. -/
theorem listToNumberAux_data (l : List Nat) :
    ∀ acc : String, (listToNumberAux acc l).data =
      acc.data ++ (l.map byteHexChars).flatten := by
  induction l with
  | nil => intro acc; simp [listToNumberAux]
  | cons x xs ih =>
      intro acc
      by_cases hx : x ≤ 0xF <;>
        simp [listToNumberAux, hx, ih, byteHexChars, String.data_append,
          data_mk, data_zero_str]

set_option maxHeartbeats 1000000 in
set_option maxRecDepth 10000 in
/-- Exhaustive per-byte check: for every byte value the loop body of
`_list_to_number` emits exactly two lowercase hex digit characters whose
values are the byte's two nibbles. -/
theorem byteHexChars_ok : ∀ item : Nat, item < 256 →
    (byteHexChars item).length = 2 ∧
    (∀ c ∈ byteHexChars item, isLowerHexDigit c) ∧
    hexDigitToNat ((byteHexChars item).getD 0 (Char.ofNat 32)) =
      some (item / 16) ∧
    hexDigitToNat ((byteHexChars item).getD 1 (Char.ofNat 32)) =
      some (item % 16) := by
  decide

/-- Length of the emitted character stream: two per byte. -/
theorem byteHex_flatten_length (l : List Nat) (h : ∀ x ∈ l, x < 256) :
    ((l.map byteHexChars).flatten).length = 2 * l.length := by
  induction l with
  | nil => simp
  | cons x xs ih =>
      have hx := (byteHexChars_ok x (h x (by simp))).1
      simp only [List.map_cons, List.flatten_cons, List.length_append, hx,
        List.length_cons, ih (fun y hy => h y (by simp [hy]))]
      omega

/-- Every emitted character is a lowercase hex digit. -/
theorem byteHex_flatten_lower (l : List Nat) (h : ∀ x ∈ l, x < 256) :
    ∀ c ∈ (l.map byteHexChars).flatten, isLowerHexDigit c := by
  intro c hc
  simp only [List.mem_flatten, List.mem_map] at hc
  obtain ⟨cs, ⟨x, hx, rfl⟩, hcin⟩ := hc
  exact (byteHexChars_ok x (h x hx)).2.1 c hcin

/-- Decoding the emitted stream two digits at a time recovers the bytes. -/
theorem decodeHexPairs_flatten (l : List Nat) (h : ∀ x ∈ l, x < 256) :
    decodeHexPairs ((l.map byteHexChars).flatten) = some l := by
  induction l with
  | nil => simp [decodeHexPairs]
  | cons x xs ih =>
      obtain ⟨hlen, _, hhi, hlo⟩ := byteHexChars_ok x (h x (by simp))
      obtain ⟨c1, c2, hbx⟩ := List.length_eq_two.mp hlen
      rw [hbx] at hhi hlo
      simp only [List.getD_cons_zero, List.getD_cons_succ] at hhi hlo
      have hrest := ih (fun y hy => h y (by simp [hy]))
      simp only [List.map_cons, List.flatten_cons, hbx, List.cons_append,
        List.nil_append, decodeHexPairs, hhi, hlo, hrest]
      have hx : 16 * (x / 16) + x % 16 = x := by omega
      simp [hx]

/-- Claim C7: for every list of byte values, `_list_to_number` produces a
string of exactly `2 * length` lowercase hexadecimal characters — each
byte rendered as exactly two digits, concatenated in order — and decoding
that string back two hex digits at a time reproduces the list. -/
theorem listToNumber_roundtrip (l : List Nat) (h : ∀ x ∈ l, x < 256) :
    (Action.listToNumber l).length = 2 * l.length ∧
    (∀ c ∈ (Action.listToNumber l).data, isLowerHexDigit c) ∧
    decodeHexPairs (Action.listToNumber l).data = some l := by
  have hd : (Action.listToNumber l).data = (l.map byteHexChars).flatten := by
    simpa [data_empty_str] using listToNumberAux_data l ""
  refine ⟨?_, ?_, ?_⟩
  · have hl : (Action.listToNumber l).length =
        (Action.listToNumber l).data.length := rfl
    rw [hl, hd]
    exact byteHex_flatten_length l h
  · rw [hd]
    exact byteHex_flatten_lower l h
  · rw [hd]
    exact decodeHexPairs_flatten l h

/-- Witness for C7 at the concrete list `[1, 0xAB, 0xF]`. -/
theorem listToNumber_roundtrip_witness :
    (Action.listToNumber [1, 0xAB, 0xF]).length =
      2 * ([1, 0xAB, 0xF] : List Nat).length ∧
    (∀ c ∈ (Action.listToNumber [1, 0xAB, 0xF]).data, isLowerHexDigit c) ∧
    decodeHexPairs (Action.listToNumber [1, 0xAB, 0xF]).data =
      some [1, 0xAB, 0xF] :=
  listToNumber_roundtrip [1, 0xAB, 0xF] (by decide)
